import Mathlib

/-!
Verification of the Mailchimp signup component
(src/js/src/components/MailchimpSignup.js).

The component is a small client-side state machine: it classifies a remote
signup response, sanitizes error messages, tracks a success flag, notifies
the host wizard of flag changes, and renders a form unless a skip condition
holds.  Every definition below is a shallow embedding of the corresponding
function of that file; JavaScript strings are Lean strings, and the one
JavaScript value that is not a boolean (the `successfulSignup` state field,
which the constructor seeds with the whole `value` prop object) is modelled
by the `SignupFlag` type distinguishing the object reference from booleans.
-/

namespace MailchimpSignup

/-- Whether `sub` occurs as a contiguous run inside `l`. -/
def containsSublist : List Char → List Char → Bool
  | [], sub => sub.isEmpty
  | c :: rest, sub =>
    List.isPrefixOf sub (c :: rest) || containsSublist rest sub

/-- JavaScript substring containment: `s.indexOf(sub) !== -1`. -/
def jsIncludes (s sub : String) : Bool :=
  containsSublist s.data sub.data

/-- The value stored in `this.state.successfulSignup`.  The constructor
stores the `props.value` object itself (`objRef`, remembering its
`hasSignup` field); `handleResultSignup` later stores JavaScript booleans
(`boolVal`).  The two kinds are never strictly equal in JavaScript. -/
inductive SignupFlag where
  | objRef (hasSignup : Bool)
  | boolVal (b : Bool)
deriving DecidableEq, Repr

/-- JavaScript truthiness of a `successfulSignup` value: any object is
truthy; a boolean is its own truth value. -/
def SignupFlag.truthy : SignupFlag → Bool
  | .objRef _ => true
  | .boolVal b => b

/-- JavaScript strict equality `===` on `successfulSignup` values.  An
object is never strictly equal to a boolean.  Only one object (the initial
`props.value` reference) ever occupies the field during a mount, so
structural equality on `objRef` coincides with reference equality. -/
def SignupFlag.strictEq : SignupFlag → SignupFlag → Bool
  | .objRef a, .objRef b => a == b
  | .boolVal a, .boolVal b => a == b
  | _, _ => false

/-- The `value` prop: shape `\x7b hasSignup : bool \x7d`. -/
structure ValueProp where
  hasSignup : Bool
deriving DecidableEq, Repr

/-- The recognized keys of the `properties` prop that the embedded
operations read. -/
structure Properties where
  mailchimpActionUrl : String
  currentUserEmail : String
  title : String
  label : String
deriving DecidableEq, Repr

/-- `stepState.fieldValues.newsletter.mailchimpSignup`. -/
structure MailchimpSignupField where
  hasSignup : Bool
deriving DecidableEq, Repr

/-- `stepState.fieldValues.newsletter`. -/
structure NewsletterFields where
  mailchimpSignup : MailchimpSignupField
deriving DecidableEq, Repr

/-- `stepState.fieldValues`. -/
structure FieldValues where
  newsletter : NewsletterFields
deriving DecidableEq, Repr

/-- The host wizard step context prop. -/
structure StepState where
  currentStep : String
  fieldValues : FieldValues
deriving DecidableEq, Repr

/-- The props the embedded operations read. -/
structure Props where
  name : String
  value : ValueProp
  properties : Properties
  stepState : StepState
deriving DecidableEq, Repr

/-- `this.state`: `message` is `none` while the JavaScript field is still
undefined (before any response has been handled). -/
structure ComponentState where
  successfulSignup : SignupFlag
  isLoading : Bool
  message : Option String
deriving DecidableEq, Repr

/-- The constructor: `this.state = \x7b successfulSignup: this.props.value,
isLoading: false \x7d`.  Note that it stores the `value` object itself, not
its `hasSignup` field. -/
def initialState (props : Props) : ComponentState :=
  { successfulSignup := SignupFlag.objRef props.value.hasSignup
    isLoading := false
    message := none }

/-- `hasSubscription()`: returns `this.props.value.hasSignup`. -/
def hasSubscription (props : Props) : Bool :=
  props.value.hasSignup

/-- The structured remote response parsed from the JSONP body. -/
structure RemoteResponse where
  result : String
  msg : String
deriving DecidableEq, Repr

/-- Outcome of the signup request promise: it resolves with a structured
response, or rejects with a transport-level failure. -/
inductive RequestResult where
  | resolved (response : RemoteResponse)
  | rejected
deriving DecidableEq, Repr

/-- The substring whose presence in `msg` marks an already-subscribed
address. -/
def alreadySubscribedMarker : String :=
  "is already subscribed"

/-- The fixed confirmation-reminder text shown for already-subscribed
responses (the code concatenates the two string literals without a space,
reproduced faithfully here). -/
def confirmationReminderText : String :=
  "Almost finished... We need to confirm your email address." ++
    "To complete the subscription process, please click the link in the email we just sent you."

/-- The `result` tag value that marks a provider error. -/
def errorResultTag : String :=
  "error"

/-- One line terminator for the JavaScript regexp dot (which matches any
character except a line terminator). -/
def isLineTerminator (c : Char) : Bool :=
  c == '\n' || c == '\r' || c == Char.ofNat 8232 || c == Char.ofNat 8233

/-- Lazy-match helper for the regexp `<a.*?<\/a>`: given the characters
following an `<a` occurrence, the length of the shortest stretch of
non-line-terminator characters after which `</a>` begins, if any. -/
def findAnchorClose : List Char → Option Nat
  | [] => none
  | c :: rest =>
    if List.isPrefixOf ( "</a>" ).data (c :: rest) then some 0
    else if isLineTerminator c then none
    else Option.map (fun n => n + 1) (findAnchorClose rest)

/-- Length of the regexp match of `<a.*?<\/a>` starting exactly at the head
of `cs`, if one starts there. -/
def anchorMatchLength (cs : List Char) : Option Nat :=
  if List.isPrefixOf ( "<a" ).data cs then
    Option.map (fun n => n + 6) (findAnchorClose (cs.drop 2))
  else none

/-- Removes the leftmost match of the regexp `<a.*?<\/a>` (leftmost start,
then shortest extension, as JavaScript `String.replace` with a lazy
quantifier does), leaving the string unchanged when there is no match. -/
def stripLinkAux : List Char → List Char
  | [] => []
  | c :: rest =>
    match anchorMatchLength (c :: rest) with
    | some n => (c :: rest).drop n
    | none => c :: stripLinkAux rest

/-- `stripLinkFromMessage(message)`:
`message.replace( /<a.*?<\/a>/, "" )`. -/
def stripLinkFromMessage (message : String) : String :=
  String.mk (stripLinkAux message.data)

/-- The 4-character status-code artifact stripped from error messages. -/
def zeroDashMarker : String :=
  "0 - "

/-- `stripMessage(string)`: `string.endsWith( "0 - ", 4 )` checks whether
the first four characters (the string truncated at end position 4) end
with, hence equal, `"0 - "`; when they do, `string.slice( 4 )` drops
them. -/
def stripMessage (string : String) : String :=
  if string.data.take 4 = zeroDashMarker.data then
    String.mk (string.data.drop 4)
  else string

/-- The classification of a structured response, as decided by the branch
order of `handleResultSignup`. -/
inductive Classification where
  | alreadySubscribed
  | error (msg : String)
  | success (msg : String)
deriving DecidableEq, Repr

/-- The branch order of the `then` handler of `handleResultSignup`:
already-subscribed marker first, then the `result` tag, then the success
fallthrough. -/
def classifyResponse (r : RemoteResponse) : Classification :=
  if jsIncludes r.msg alreadySubscribedMarker then
    Classification.alreadySubscribed
  else if r.result = errorResultTag then
    Classification.error r.msg
  else
    Classification.success r.msg

/-- The `setState` each classification performs in `handleResultSignup`. -/
def applyClassification (s : ComponentState) : Classification → ComponentState
  | Classification.alreadySubscribed =>
    { s with
      isLoading := false
      successfulSignup := SignupFlag.boolVal true
      message := some confirmationReminderText }
  | Classification.error m =>
    { s with
      isLoading := false
      successfulSignup := SignupFlag.boolVal false
      message := some (stripMessage (stripLinkFromMessage m)) }
  | Classification.success m =>
    { s with
      isLoading := false
      successfulSignup := SignupFlag.boolVal true
      message := some m }

/-- `handleResultSignup(result)`: on resolution the response is classified
and the state updated; on rejection the failure is only logged with
`console.error` (the returned boolean records whether such a log was
emitted) and the state is left untouched. -/
def handleResultSignup (s : ComponentState) :
    RequestResult → ComponentState × Bool
  | RequestResult.resolved r =>
    (applyClassification s (classifyResponse r), false)
  | RequestResult.rejected => (s, true)

/-- The event object built by `sendChangeEvent()`: `target.name` is
`"mailchimpSignup"` and `target.value.hasSignup` is the current
`successfulSignup` state value. -/
structure ChangeEvent where
  name : String
  hasSignup : SignupFlag
deriving DecidableEq, Repr

/-- The field name carried by every change event. -/
def changeEventName : String :=
  "mailchimpSignup"

/-- `sendChangeEvent()` as the event it passes to `this.onChange`. -/
def sendChangeEvent (s : ComponentState) : ChangeEvent :=
  { name := changeEventName
    hasSignup := s.successfulSignup }

/-- `componentDidUpdate(prevProps, prevState)`: when
`this.state.successfulSignup !== prevState.successfulSignup` the change
event is sent, otherwise nothing happens. -/
def componentDidUpdate (prevState s : ComponentState) : Option ChangeEvent :=
  if SignupFlag.strictEq s.successfulSignup prevState.successfulSignup then
    none
  else
    some (sendChangeEvent s)

/-- The request descriptor `signup()` hands to `sendRequest`. -/
structure Request where
  url : String
  data : String
  dataType : String
  jsonp : String
  method : String
deriving DecidableEq, Repr

/-- `signup()`: reads the email input value, builds the body by plain
template interpolation, sets `isLoading`, and issues exactly one request
via `sendRequest` with the JSONP options of the source. -/
def signup (props : Props) (email : String) (s : ComponentState) :
    ComponentState × List Request :=
  ({ s with isLoading := true },
   [{ url := props.properties.mailchimpActionUrl
      data := "EMAIL=" ++ email
      dataType := "jsonp"
      jsonp := "c"
      method := "POST" }])

/-- `skipRendering()`: the current step is the success step and the step
state already records a Mailchimp signup. -/
def skipRendering (props : Props) : Bool :=
  props.stepState.currentStep == "success" &&
    props.stepState.fieldValues.newsletter.mailchimpSignup.hasSignup == true

/-- The status paragraph produced by `getSignupMessage()`. -/
structure SignupMessageParagraph where
  className : String
  ariaLive : String
  text : Option String
deriving DecidableEq, Repr

/-- Class name of the success-styled status paragraph. -/
def successClassName : String :=
  "yoast-wizard-mailchimp-message-success"

/-- Class name of the error-styled status paragraph. -/
def errorClassName : String :=
  "yoast-wizard-mailchimp-message-error"

/-- `getSignupMessage()`: one paragraph, success-styled when
`this.state.successfulSignup` is truthy and error-styled otherwise, always
with `aria-live="assertive"`, carrying `this.state.message`. -/
def getSignupMessage (s : ComponentState) : SignupMessageParagraph :=
  if SignupFlag.truthy s.successfulSignup then
    { className := successClassName
      ariaLive := "assertive"
      text := s.message }
  else
    { className := errorClassName
      ariaLive := "assertive"
      text := s.message }

/-- The form `render()` returns when it does not skip: the pieces of the
returned tree that the claims are about. -/
structure RenderedForm where
  title : String
  label : String
  emailDefaultValue : String
  message : SignupMessageParagraph
  loaderShown : Bool
deriving DecidableEq, Repr

/-- The form built by the non-skipping branch of `render()`. -/
def renderedForm (props : Props) (s : ComponentState) : RenderedForm :=
  { title := props.properties.title
    label := props.properties.label
    emailDefaultValue := props.properties.currentUserEmail
    message := getSignupMessage s
    loaderShown := s.isLoading }

/-- `render()`: returns `null` when `skipRendering()` holds, otherwise the
form. -/
def render (props : Props) (s : ComponentState) : Option RenderedForm :=
  if skipRendering props then none
  else some (renderedForm props s)

/-! ### Spec-side definition for the remote call contract

The spec states the request body is `EMAIL=<urlencoded-address>`.  The
following definitions render that phrase precisely (percent-encoding with
the RFC 3986 unreserved set, as `encodeURIComponent` produces on ASCII
input) so it can be compared with the body the source builds. -/

/-- Uppercase hexadecimal digit for a value below 16. -/
def hexDigitChar (n : Nat) : Char :=
  if n < 10 then Char.ofNat (48 + n) else Char.ofNat (55 + n)

/-- Characters that URL-encoding leaves as-is (RFC 3986 unreserved set). -/
def isUnreservedChar (c : Char) : Bool :=
  c.isAlphanum || c == '-' || c == '_' || c == '.' || c == '~'

/-- Percent-encoding of a single ASCII character. -/
def percentEncodeChar (c : Char) : List Char :=
  if isUnreservedChar c then [c]
  else ['%', hexDigitChar (c.toNat / 16), hexDigitChar (c.toNat % 16)]

/-- URL-encoding of an ASCII address, per the spec phrase
`EMAIL=<urlencoded-address>`. -/
def specUrlEncode (s : String) : String :=
  String.mk (List.flatten (s.data.map percentEncodeChar))

/-! ### Concrete example inputs used by witnesses and counterexamples -/

/-- A message containing the already-subscribed marker. -/
def exMsgAlready : String :=
  "john@example.test is already subscribed to list Newsletter"

/-- An error message with an anchor element and a leading status code. -/
def exMsgAnchor : String :=
  "0 - Your email <a href=fix>fix it</a> is invalid"

/-- A plain success message. -/
def exMsgOk : String :=
  "Thank you for subscribing!"

/-- An example email address containing a character that URL-encoding
escapes. -/
def exEmail : String :=
  "a@b.c"

/-- A response whose message carries the already-subscribed marker even
though its result tag says error. -/
def exAlreadyResponse : RemoteResponse :=
  { result := errorResultTag
    msg := exMsgAlready }

/-- An error-tagged response with markup and status-code artifacts. -/
def exErrorResponse : RemoteResponse :=
  { result := errorResultTag
    msg := exMsgAnchor }

/-- A plain success response. -/
def exSuccessResponse : RemoteResponse :=
  { result := "success"
    msg := exMsgOk }

/-- An idle component state: no signup yet, not loading, no message. -/
def exState : ComponentState :=
  { successfulSignup := SignupFlag.boolVal false
    isLoading := false
    message := none }

/-- Example props on a non-success wizard step with no recorded signup. -/
def exProps : Props :=
  { name := "mailchimpSignup"
    value := { hasSignup := false }
    properties :=
      { mailchimpActionUrl := "https://example.test/subscribe"
        currentUserEmail := "user@example.test"
        title := "Newsletter"
        label := "Sign up for our newsletter" }
    stepState :=
      { currentStep := "intro"
        fieldValues :=
          { newsletter := { mailchimpSignup := { hasSignup := false } } } } }

/-- The spec example of a message with the leading status-code artifact. -/
def exInvalidEmailMsg : String :=
  "0 - Your email is invalid"

/-- The spec example after stripping the artifact. -/
def exInvalidEmailStripped : String :=
  "Your email is invalid"

/-- The spec example where the artifact occurs away from the start. -/
def exNoStripMsg : String :=
  "No 0 - prefix present"

/-! ### Helper lemmas -/

/-- JavaScript strict equality on flag values is reflexive (for `objRef`
this reflects that the single stored object is compared with itself). -/
theorem SignupFlag.strictEq_refl (x : SignupFlag) :
    SignupFlag.strictEq x x = true := by
  cases x <;> simp [SignupFlag.strictEq]

/-! ### Claims -/

/-- C1: for every structured response, `handleResultSignup` factors through
the classifier, and classification is decided in priority order: a message
containing the already-subscribed marker is classified
`alreadySubscribed` regardless of the result tag; otherwise an `error`
result tag gives `error msg`; otherwise `success msg`. -/
theorem classification_priority (s : ComponentState) (r : RemoteResponse) :
    (handleResultSignup s (RequestResult.resolved r)).1
        = applyClassification s (classifyResponse r) ∧
    (jsIncludes r.msg alreadySubscribedMarker = true →
      classifyResponse r = Classification.alreadySubscribed) ∧
    (jsIncludes r.msg alreadySubscribedMarker = false →
      r.result = errorResultTag →
      classifyResponse r = Classification.error r.msg) ∧
    (jsIncludes r.msg alreadySubscribedMarker = false →
      r.result ≠ errorResultTag →
      classifyResponse r = Classification.success r.msg) := by
  refine ⟨rfl, ?_, ?_, ?_⟩
  · intro h
    simp [classifyResponse, h]
  · intro h1 h2
    simp [classifyResponse, h1, h2]
  · intro h1 h2
    simp [classifyResponse, h1, h2]

/-- Witness for C1 at three concrete responses, one per branch; the first
carries an `error` result tag yet is classified already-subscribed. -/
theorem classification_priority_holds :
    classifyResponse exAlreadyResponse = Classification.alreadySubscribed ∧
    classifyResponse exErrorResponse = Classification.error exMsgAnchor ∧
    classifyResponse exSuccessResponse = Classification.success exMsgOk :=
  ⟨(classification_priority exState exAlreadyResponse).2.1 (by decide),
   (classification_priority exState exErrorResponse).2.2.1 (by decide) rfl,
   (classification_priority exState exSuccessResponse).2.2.2 (by decide)
     (by decide)⟩

/-- C2: counterexample — when the success flag flips from true to false
(a failed submit after a successful one), `componentDidUpdate` still emits
a change event, and that event carries `hasSignup` false; the claim allows
an event only for a first flip to true, carrying true. -/
theorem change_event_emitted_on_true_to_false :
    componentDidUpdate
        { successfulSignup := SignupFlag.boolVal true
          isLoading := false
          message := some exMsgOk }
        { successfulSignup := SignupFlag.boolVal false
          isLoading := false
          message := some exInvalidEmailStripped }
      = some { name := changeEventName
               hasSignup := SignupFlag.boolVal false } := by
  decide

/-- C2 (amended): a change event is emitted exactly when the new
`successfulSignup` value is not strictly equal to the previous one — not
only on a first flip to true — and it carries the new flag value; an
update that leaves the flag strictly equal (in particular an unchanged
state) emits nothing, so each flip emits exactly once. -/
theorem change_event_on_flag_change (prevState s : ComponentState) :
    componentDidUpdate prevState s
        = (if SignupFlag.strictEq s.successfulSignup prevState.successfulSignup
           then none
           else some { name := changeEventName
                       hasSignup := s.successfulSignup }) ∧
    componentDidUpdate s s = none := by
  refine ⟨rfl, ?_⟩
  simp [componentDidUpdate, SignupFlag.strictEq_refl]

/-- C3: a response whose message contains the already-subscribed marker
sets the success flag to true and replaces the message with the fixed
confirmation-reminder text; the raw provider message is never what is
shown, since no message containing the marker equals that fixed text. -/
theorem already_subscribed_outcome (s : ComponentState) (r : RemoteResponse)
    (h : jsIncludes r.msg alreadySubscribedMarker = true) :
    (handleResultSignup s (RequestResult.resolved r)).1.successfulSignup
        = SignupFlag.boolVal true ∧
    (handleResultSignup s (RequestResult.resolved r)).1.message
        = some confirmationReminderText ∧
    r.msg ≠ confirmationReminderText := by
  refine ⟨?_, ?_, ?_⟩
  · simp [handleResultSignup, classifyResponse, applyClassification, h]
  · simp [handleResultSignup, classifyResponse, applyClassification, h]
  · intro heq
    rw [heq] at h
    exact absurd h (by decide)

/-- Witness for C3 at a concrete already-subscribed response whose result
tag is `error`. -/
theorem already_subscribed_outcome_holds :
    (handleResultSignup exState
        (RequestResult.resolved exAlreadyResponse)).1.successfulSignup
        = SignupFlag.boolVal true ∧
    (handleResultSignup exState
        (RequestResult.resolved exAlreadyResponse)).1.message
        = some confirmationReminderText ∧
    exAlreadyResponse.msg ≠ confirmationReminderText :=
  already_subscribed_outcome exState exAlreadyResponse (by decide)

/-- C4: the sanitization pipeline — first remove the first anchor element,
then strip the leading status-code artifact — is applied to the message of
error-classified responses and only to those; success and
already-subscribed responses keep their message unsanitized (the latter
replaced by the fixed text). -/
theorem sanitization_only_for_errors (s : ComponentState)
    (r : RemoteResponse) :
    (jsIncludes r.msg alreadySubscribedMarker = false →
      r.result = errorResultTag →
      (handleResultSignup s (RequestResult.resolved r)).1.message
        = some (stripMessage (stripLinkFromMessage r.msg))) ∧
    (jsIncludes r.msg alreadySubscribedMarker = false →
      r.result ≠ errorResultTag →
      (handleResultSignup s (RequestResult.resolved r)).1.message
        = some r.msg) ∧
    (jsIncludes r.msg alreadySubscribedMarker = true →
      (handleResultSignup s (RequestResult.resolved r)).1.message
        = some confirmationReminderText) := by
  refine ⟨?_, ?_, ?_⟩
  · intro h1 h2
    simp [handleResultSignup, classifyResponse, applyClassification, h1, h2]
  · intro h1 h2
    simp [handleResultSignup, classifyResponse, applyClassification, h1, h2]
  · intro h
    simp [handleResultSignup, classifyResponse, applyClassification, h]

/-- Witness for C4: one concrete response per branch; the error branch
shows the sanitization order on a message with both an anchor and the
status-code artifact. -/
theorem sanitization_only_for_errors_holds :
    (handleResultSignup exState
        (RequestResult.resolved exErrorResponse)).1.message
        = some (stripMessage (stripLinkFromMessage exMsgAnchor)) ∧
    (handleResultSignup exState
        (RequestResult.resolved exSuccessResponse)).1.message
        = some exMsgOk ∧
    (handleResultSignup exState
        (RequestResult.resolved exAlreadyResponse)).1.message
        = some confirmationReminderText :=
  ⟨(sanitization_only_for_errors exState exErrorResponse).1
      (by decide) rfl,
   (sanitization_only_for_errors exState exSuccessResponse).2.1
      (by decide) (by decide),
   (sanitization_only_for_errors exState exAlreadyResponse).2.2
      (by decide)⟩

/-- C5: `stripMessage` removes exactly the 4-character status-code
artifact, once, and only when it stands at the very start: prepending the
artifact to any string and stripping returns that string; the two spec
examples behave as stated. -/
theorem strip_message_exact :
    (∀ t : String, stripMessage (zeroDashMarker ++ t) = t) ∧
    stripMessage exInvalidEmailMsg = exInvalidEmailStripped ∧
    stripMessage exNoStripMsg = exNoStripMsg := by
  refine ⟨?_, by decide, by decide⟩
  intro t
  obtain ⟨l⟩ := t
  show stripMessage (String.mk ('0' :: ' ' :: '-' :: ' ' :: l)) = String.mk l
  simp [stripMessage, zeroDashMarker]

/-- C6: `render` returns nothing exactly when the host context reports the
success step together with a recorded signup, and renders the form in
every other context. -/
theorem render_skip_exact (props : Props) (s : ComponentState) :
    render props s
      = (if props.stepState.currentStep = "success" ∧
            props.stepState.fieldValues.newsletter.mailchimpSignup.hasSignup
              = true
         then none
         else some (renderedForm props s)) := by
  by_cases h1 : props.stepState.currentStep = "success" <;>
    by_cases h2 :
      props.stepState.fieldValues.newsletter.mailchimpSignup.hasSignup
        = true <;>
      simp [render, skipRendering, h1, h2]

/-- C7: a rejected request leaves the component state entirely unchanged
(in particular a loading state stays loading, the flag and message are
untouched), only emits the diagnostic log, and the unchanged state causes
no change event. -/
theorem transport_failure_leaves_state (s : ComponentState) :
    handleResultSignup s RequestResult.rejected = (s, true) ∧
    componentDidUpdate s
        (handleResultSignup s RequestResult.rejected).1 = none := by
  refine ⟨rfl, ?_⟩
  simp [componentDidUpdate, handleResultSignup, SignupFlag.strictEq_refl]

/-- C8: the constructor does not seed the flag with the boolean
`hasSignup` field — for a host-supplied value with `hasSignup` false the
initial `successfulSignup` is the (truthy) value object itself, which
differs from the boolean false the claim requires. -/
theorem initial_flag_is_object_not_boolean :
    (initialState exProps).successfulSignup = SignupFlag.objRef false ∧
    SignupFlag.truthy (initialState exProps).successfulSignup = true ∧
    (initialState exProps).successfulSignup ≠ SignupFlag.boolVal false := by
  decide

/-- C9: counterexample — the request body interpolates the raw address:
for the address `a@b.c` the body is `EMAIL=a@b.c`, which differs from
`EMAIL=` followed by the URL-encoded address (`a%40b.c`). -/
theorem signup_body_not_urlencoded :
    (signup exProps exEmail exState).2.map Request.data
        = [ "EMAIL=" ++ exEmail ] ∧
    specUrlEncode exEmail = "a%40b.c" ∧
    "EMAIL=" ++ exEmail ≠ "EMAIL=" ++ specUrlEncode exEmail := by
  decide

/-- C9 (amended): every submit issues exactly one POST request to
`mailchimpActionUrl` with JSONP response format and callback parameter
`c`, whose body is `EMAIL=` followed by the raw address read from the
email field at submit time (no URL-encoding is applied); the submit also
sets the loading flag. -/
theorem signup_issues_one_request (props : Props) (email : String)
    (s : ComponentState) :
    (signup props email s).2
        = [ { url := props.properties.mailchimpActionUrl
              data := "EMAIL=" ++ email
              dataType := "jsonp"
              jsonp := "c"
              method := "POST" } ] ∧
    (signup props email s).1 = { s with isLoading := true } :=
  ⟨rfl, rfl⟩

/-- C10: whenever the skip condition does not hold, `render` returns the
form, whose single status paragraph carries the assertive live-region
annotation — also in the idle state with no message — and the success
style exactly when the `successfulSignup` state is truthy, the error style
otherwise. -/
theorem status_paragraph_always_present (props : Props)
    (s : ComponentState) (h : skipRendering props = false) :
    render props s = some (renderedForm props s) ∧
    (renderedForm props s).message.ariaLive = "assertive" ∧
    (renderedForm props s).message
        = (if SignupFlag.truthy s.successfulSignup
           then { className := successClassName
                  ariaLive := "assertive"
                  text := s.message }
           else { className := errorClassName
                  ariaLive := "assertive"
                  text := s.message }) := by
  refine ⟨by simp [render, h], ?_, rfl⟩
  cases htr : SignupFlag.truthy s.successfulSignup <;>
    simp [renderedForm, getSignupMessage, htr]

/-- Witness for C10 on the idle state (message still undefined) with
non-skipping props. -/
theorem status_paragraph_always_present_holds :
    render exProps exState = some (renderedForm exProps exState) ∧
    (renderedForm exProps exState).message.ariaLive = "assertive" ∧
    (renderedForm exProps exState).message
        = (if SignupFlag.truthy exState.successfulSignup
           then { className := successClassName
                  ariaLive := "assertive"
                  text := exState.message }
           else { className := errorClassName
                  ariaLive := "assertive"
                  text := exState.message }) :=
  status_paragraph_always_present exProps exState (by decide)

end MailchimpSignup
